import Mathlib

/-!
# Verification of the DavidAI orchestration core

A shallow embedding of the DavidAI repository's core components
(`davidai/utils/file_utils.py`, `davidai/core/loader.py`,
`davidai/core/agents.py`, `davidai/core/orchestrator.py`) together with
theorems settling the behavioural claims about them.

Conventions: Python dicts with a fixed key set become Lean structures;
heterogeneous result dicts become an inductive sum; `task.get("type")`
(which may yield `None`) becomes `Option String`; the mutable object state
of the orchestrator becomes explicit state passing.
-/

/-! ## Path model: `os.path.abspath` and `str.startswith`

`PathGuard.is_safe_path` calls `os.path.abspath(path)` and then the textual
`str.startswith` against the (also abspath-normalised) allowed root.  We model
POSIX `abspath` for the process working directory `cwd`: join a relative path
onto `cwd`, then normalise à la `os.path.normpath` (drop empty and `.`
components, make `..` pop the previous component, never above the root). -/

/-- Split a character list on `/`, like Python's `path.split(sep)`. -/
def splitSlash : List Char → List (List Char)
  | [] => [[]]
  | c :: rest =>
    let r := splitSlash rest
    if c = '/' then [] :: r
    else
      match r with
      | [] => [[c]]
      | h :: t => (c :: h) :: t

/-- The component-normalisation loop of `os.path.normpath` for an absolute
path: empty and `.` components vanish, `..` pops the accumulated stack
(dropping silently at the root), anything else is pushed. -/
def normComps (acc : List (List Char)) : List (List Char) → List (List Char)
  | [] => acc
  | c :: rest =>
    if c = ([] : List Char) ∨ c = ['.'] then normComps acc rest
    else if c = ['.', '.'] then normComps acc.dropLast rest
    else normComps (acc ++ [c]) rest

/-- Reassemble normalised components into an absolute path string
(`"/"` when no component survives). -/
def joinAbs (comps : List (List Char)) : String :=
  String.mk ('/' :: List.intercalate ['/'] comps)

/-- Python `str.startswith` on character lists. -/
def chStartsWith : List Char → List Char → Bool
  | _, [] => true
  | [], _ :: _ => false
  | a :: as, b :: bs => a = b && chStartsWith as bs

/-- Is the path absolute (begins with `/`)? -/
def isAbs (p : String) : Bool :=
  match p.data with
  | '/' :: _ => true
  | _ => false

/-- `os.path.abspath(p)` under working directory `cwd` (itself absolute):
make absolute by joining onto `cwd`, then normalise. -/
def abspath (cwd p : String) : String :=
  let full := if isAbs p then p else cwd ++ "/" ++ p
  joinAbs (normComps [] (splitSlash full.data))

/-- Python `str.startswith` on strings. -/
def pyStartsWith (s pre : String) : Bool :=
  chStartsWith s.data pre.data

/-! ## `PathGuard` (`davidai/utils/file_utils.py`) -/

/-- `PathGuard`: holds the abspath-normalised allowed root. -/
structure PathGuard where
  allowed_root : String
deriving DecidableEq

/-- `PathGuard.__init__`: `self.allowed_root = os.path.abspath(allowed_root)`. -/
def PathGuard.init (cwd root : String) : PathGuard :=
  ⟨abspath cwd root⟩

/-- `PathGuard.is_safe_path`: `os.path.abspath(path).startswith(self.allowed_root)`. -/
def PathGuard.is_safe_path (g : PathGuard) (cwd path : String) : Bool :=
  pyStartsWith (abspath cwd path) g.allowed_root

/-! ## `ModelGateway` (`davidai/core/loader.py`)

`ModelInterface.generate` is a `str -> str` capability; the registry of
`DavidAIModelManager` is a Python dict, modelled as a partial map. -/

/-- A model is its `generate` capability: prompt in, text out. -/
def ModelInterface : Type := String → String

/-- `DummyModel.generate`: the no-op fallback echoes the prompt. -/
def DummyModel : ModelInterface :=
  fun prompt => "[Dummy Response] Processed: " ++ prompt

/-- `DavidAIModelManager`: `self.models` dict from names to models. -/
structure DavidAIModelManager where
  models : String → Option ModelInterface

/-- `register_model`: `self.models[name] = model`. -/
def DavidAIModelManager.register_model (m : DavidAIModelManager)
    (name : String) (model : ModelInterface) : DavidAIModelManager :=
  ⟨fun n => if n = name then some model else m.models n⟩

/-- `get_model`: `self.models.get(name, DummyModel())`. -/
def DavidAIModelManager.get_model (m : DavidAIModelManager) (name : String) :
    ModelInterface :=
  (m.models name).getD DummyModel

/-! ## Agents (`davidai/core/agents.py`) -/

/-- A `Task` dict: `task.get("type")` and `task.get("description")`
(`none` when the key is missing, rendering as `"None"` in f-strings). -/
structure AgentTask where
  type : Option String
  description : Option String
deriving DecidableEq

/-- Python `str(x)` of an optional string inside an f-string. -/
def pyStr : Option String → String
  | some s => s
  | none => "None"

/-- An `ANT` worker: its role id and specialty, as set by `__init__`. -/
structure ANT where
  role_id : Nat
  specialty : String
deriving DecidableEq

/-- `ANT.__init__` sets `self.name = f"ANT{role_id}_{name}"`. -/
def ANT.name (a : ANT) : String :=
  "ANT" ++ toString a.role_id ++ "_" ++ a.specialty

/-- The result dict returned by `ANT.execute`. -/
structure AntResult where
  agent : String
  specialty : String
  status : String
  output : String
deriving DecidableEq

/-- `ANT.execute`: returns status `"done"` and the formatted output string
(the model is not consulted; the body is a placeholder). -/
def ANT.execute (a : ANT) (task : AgentTask) : AntResult :=
  { agent := a.name
    specialty := a.specialty
    status := "done"
    output := "Processed " ++ pyStr task.type ++ " by " ++ a.name }

/-- `BaseAgent.run` brackets `execute` with the `is_active` flag and returns
its result unchanged; result-wise it is `execute`. -/
def ANT.run (a : ANT) (task : AgentTask) : AntResult :=
  a.execute task

/-- The heterogeneous result dicts returned by `Manager.execute`:
`{"agent": ..., "status": "distributed", "results": [...]}`,
`{"status": "feedback_integrated"}`, or `{"error": msg}`. -/
inductive ManagerResult where
  | distributed (agent : String) (results : List AntResult)
  | feedback_integrated
  | errorResult (msg : String)
deriving DecidableEq

/-- A `Manager` with its registered list of ANTs (`register_ants`). -/
structure Manager where
  ants : List ANT
deriving DecidableEq

/-- `Manager._assign_task`: run every registered ANT on the same task,
collecting results in registration order. -/
def Manager.assign_task (m : Manager) (task : AgentTask) : ManagerResult :=
  .distributed "Manager" (m.ants.map (fun a => a.run task))

/-- `Manager._integrate_feedback`. -/
def Manager.integrate_feedback (_m : Manager) (_task : AgentTask) : ManagerResult :=
  .feedback_integrated

/-- `Manager.execute`: dispatch on `task.get("type")`. -/
def Manager.execute (m : Manager) (task : AgentTask) : ManagerResult :=
  if task.type = some "assign_task" then m.assign_task task
  else if task.type = some "integrate_feedback" then m.integrate_feedback task
  else .errorResult "Unknown task type"

/-- The `ant_roles` table of `DavidAI.__init__`. -/
def ant_roles : List (Nat × String) :=
  [(1, "Boilerplate"), (2, "LogicStubs"), (3, "DebugPatch"),
   (4, "AutoTest"), (5, "Docs"), (6, "DeepLogic")]

/-- The worker pool constructed by `DavidAI.__init__` from `ant_roles`. -/
def davidai_ants : List ANT :=
  ant_roles.map (fun r => ⟨r.1, r.2⟩)

/-! ## `KnowledgeCurator` (`davidai/core/agents.py`) -/

/-- The dict logged by `_simulate_work`: `{"task": ..., "success": ...}`. -/
structure PatchData where
  task : String
  success : Bool
deriving DecidableEq

/-- `KnowledgeCurator`: `self.ledger = []`. -/
structure KnowledgeCurator where
  ledger : List PatchData
deriving DecidableEq

/-- `log_success`: `self.ledger.append(patch_data)`. -/
def KnowledgeCurator.log_success (k : KnowledgeCurator) (p : PatchData) :
    KnowledgeCurator :=
  ⟨k.ledger ++ [p]⟩

/-- `get_consolidated_knowledge`: `return self.ledger`. -/
def KnowledgeCurator.get_consolidated_knowledge (k : KnowledgeCurator) :
    List PatchData :=
  k.ledger

/-- One call against the curator's public interface. -/
inductive CuratorOp where
  | logSuccess (p : PatchData)
  | getKnowledge
deriving DecidableEq

/-- Apply one operation to the curator state (`getKnowledge` is a pure read). -/
def KnowledgeCurator.apply_op (k : KnowledgeCurator) : CuratorOp → KnowledgeCurator
  | .logSuccess p => k.log_success p
  | .getKnowledge => k

/-- Run a sequence of curator operations from a given state. -/
def KnowledgeCurator.run_ops (k : KnowledgeCurator) : List CuratorOp → KnowledgeCurator
  | [] => k
  | op :: rest => (k.apply_op op).run_ops rest

/-- The entries logged by a sequence of operations, in call order. -/
def loggedEntries : List CuratorOp → List PatchData
  | [] => []
  | .logSuccess p :: rest => p :: loggedEntries rest
  | .getKnowledge :: rest => loggedEntries rest

/-- The number of `logSuccess` calls in a sequence of operations. -/
def countLogCalls : List CuratorOp → Nat
  | [] => 0
  | .logSuccess _ :: rest => countLogCalls rest + 1
  | .getKnowledge :: rest => countLogCalls rest

/-! ## Orchestrator (`davidai/core/orchestrator.py`)

The mutable state of a `DavidAI` instance (together with the `Dashboard`
flag it drives), and its lifecycle methods as state transformers.  One pass
of the `while self.is_running` loop body of `_run_cycle` becomes
`DavidAI.cycle_iter`, which also reports the tasks the body dispatched so
that "no task is dispatched" claims are expressible. -/

/-- The mutable state of a `DavidAI` instance relevant to the lifecycle:
`is_running`, `is_paused`, the driven `Dashboard.is_running` flag, the
curator's ledger, and the per-ANT `is_active` flags. -/
structure DavidAI where
  is_running : Bool
  is_paused : Bool
  dashboard_running : Bool
  curator : KnowledgeCurator
  active_flags : List Bool
deriving DecidableEq

/-- The state after `DavidAI.__init__`: not running, not paused, dashboard
stopped, empty ledger, six idle ANTs. -/
def DavidAI.init : DavidAI :=
  { is_running := false
    is_paused := false
    dashboard_running := false
    curator := ⟨[]⟩
    active_flags := List.replicate 6 false }

/-- The status snapshot returned by `DavidAI.get_status`. -/
structure StatusSnapshot where
  running : Bool
  paused : Bool
  agents_active : Nat
  knowledge_base_size : Nat
deriving DecidableEq

/-- `DavidAI.get_status`. -/
def DavidAI.get_status (s : DavidAI) : StatusSnapshot :=
  { running := s.is_running
    paused := s.is_paused
    agents_active := (s.active_flags.filter (fun b => b)).length
    knowledge_base_size := s.curator.get_consolidated_knowledge.length }

/-- `DavidAI.start_cycle`: no-op when already running, else set `is_running`,
start the dashboard and spawn the cycle loop.  The returned Bool records
whether a new cycle loop thread was spawned by this call. -/
def DavidAI.start_cycle (s : DavidAI) : DavidAI × Bool :=
  if s.is_running then (s, false)
  else ({ s with is_running := true, dashboard_running := true }, true)

/-- `DavidAI.pause_cycle`: unconditionally flip `is_paused` and set
`dashboard.is_running = not is_paused`. -/
def DavidAI.pause_cycle (s : DavidAI) : DavidAI :=
  let p := !s.is_paused
  { s with is_paused := p, dashboard_running := !p }

/-- `DavidAI.shutdown`: `self.is_running = False; self.dashboard.stop()`. -/
def DavidAI.shutdown (s : DavidAI) : DavidAI :=
  { s with is_running := false, dashboard_running := false }

/-- `cycle_duration = 12 * 60 * 60` seconds. -/
def cycle_duration : Nat := 12 * 60 * 60

/-- The `plan` task dispatched to the CEO each work cycle. -/
def planTask : AgentTask := ⟨some "plan", some "New coding task"⟩

/-- The `assign_task` task dispatched to the Manager each work cycle. -/
def assignTask : AgentTask := ⟨some "assign_task", some "Implement feature X"⟩

/-- `DavidAI._simulate_work`: dispatch the plan task and the assign task,
then log one success entry to the curator.  Returns the new state and the
tasks dispatched. -/
def DavidAI.simulate_work (s : DavidAI) : DavidAI × List AgentTask :=
  ({ s with curator := s.curator.log_success ⟨"simulated_task", true⟩ },
   [planTask, assignTask])

/-- One attempted iteration of the `while self.is_running` loop of
`DavidAI._run_cycle`, given the elapsed wall-clock seconds since start:
when not running the body does not execute; when paused the body sleeps and
continues; when the duration has expired it shuts down; otherwise it
performs `_simulate_work`.  The second component lists the tasks this
iteration dispatched. -/
def DavidAI.cycle_iter (s : DavidAI) (elapsed : Nat) : DavidAI × List AgentTask :=
  if !s.is_running then (s, [])
  else if s.is_paused then (s, [])
  else if elapsed > cycle_duration then (s.shutdown, [])
  else s.simulate_work

/-! ## Auxiliary lemmas -/

/-- Running a sequence of curator operations appends exactly the logged
entries, in call order. -/
theorem KnowledgeCurator.run_ops_ledger (ops : List CuratorOp) (k : KnowledgeCurator) :
    (k.run_ops ops).ledger = k.ledger ++ loggedEntries ops := by
  induction ops generalizing k with
  | nil => simp [KnowledgeCurator.run_ops, loggedEntries]
  | cons op rest ih =>
    cases op with
    | logSuccess p =>
      simp [KnowledgeCurator.run_ops, KnowledgeCurator.apply_op,
        KnowledgeCurator.log_success, loggedEntries, ih]
    | getKnowledge =>
      simp [KnowledgeCurator.run_ops, KnowledgeCurator.apply_op, loggedEntries, ih]

/-- The number of entries a sequence of operations logs is its number of
`logSuccess` calls. -/
theorem loggedEntries_length (ops : List CuratorOp) :
    (loggedEntries ops).length = countLogCalls ops := by
  induction ops with
  | nil => rfl
  | cons op rest ih => cases op <;> simp [loggedEntries, countLogCalls, ih]

/-- `loggedEntries` distributes over concatenation of call sequences. -/
theorem loggedEntries_append (pre post : List CuratorOp) :
    loggedEntries (pre ++ post) = loggedEntries pre ++ loggedEntries post := by
  induction pre with
  | nil => rfl
  | cons op rest ih => cases op <;> simp [loggedEntries, ih]

/-- A sample curator call sequence and a split of it, used as witness data. -/
def demoOps : List CuratorOp :=
  [.logSuccess ⟨"simulated_task", true⟩, .getKnowledge, .logSuccess ⟨"patch2", false⟩]

/-- The first element of the `demoOps` split. -/
def demoPre : List CuratorOp := [.logSuccess ⟨"simulated_task", true⟩]

/-- The remainder of the `demoOps` split. -/
def demoPost : List CuratorOp := [.getKnowledge, .logSuccess ⟨"patch2", false⟩]

/-- An empty model registry, used as witness data. -/
def emptyManager : DavidAIModelManager := ⟨fun _ => none⟩

/-! ## Claim theorems -/

/-- Claim C1 — evaluation of the code at the failing input: with boundary
`/workspace`, `PathGuard.is_safe_path` ACCEPTS the sibling path
`/workspace2/x` (the textual `startswith` check has no separator guard), so
the claimed rejection of sibling-directory false positives does not hold of
the code. -/
theorem is_safe_path_accepts_sibling :
    (PathGuard.init "/" "/workspace").is_safe_path "/" "/workspace2/x" = true := by
  decide

/-- Claim C2: with boundary `/ws`, the traversal path
`/ws/a/../../etc/passwd` is canonicalized to `/etc/passwd` and rejected,
while `/ws/sub/file.txt` is accepted. -/
theorem is_safe_path_traversal_scenarios :
    (PathGuard.init "/" "/ws").is_safe_path "/" "/ws/a/../../etc/passwd" = false ∧
    (PathGuard.init "/" "/ws").is_safe_path "/" "/ws/sub/file.txt" = true := by
  decide

/-- Claim C3 — counterexample: on a concrete task, `ANT.execute` returns
status `"done"`, which is none of `completed`, `distributed`, `error`, so
the claimed status contract fails on the code. -/
theorem ant_execute_status_not_contractual :
    ¬ (((ANT.mk 1 "Boilerplate").execute assignTask).status = "completed" ∨
       ((ANT.mk 1 "Boilerplate").execute assignTask).status = "distributed" ∨
       ((ANT.mk 1 "Boilerplate").execute assignTask).status = "error") := by
  decide

/-- Claim C3 — amended: for every task, `ANT.execute` returns a result with
status `"done"`, agent set to the worker's own name, specialty set to the
worker's specialty, and output the fixed formatted string
`Processed <task type> by <name>`, computed without invoking the model. -/
theorem ant_execute_characterization (a : ANT) (task : AgentTask) :
    (a.execute task).status = "done" ∧
    (a.execute task).agent = a.name ∧
    (a.execute task).specialty = a.specialty ∧
    (a.execute task).output = "Processed " ++ pyStr task.type ++ " by " ++ a.name :=
  ⟨rfl, rfl, rfl, rfl⟩

/-- Claim C4: executing an `assign_task` task invokes every registered
worker's `execute` with the same full task, returning status `distributed`
with exactly one result per worker in registration order, each tagged with
its own agent name; the constructed system registers 6 workers. -/
theorem manager_assign_task_fanout (m : Manager) (task : AgentTask)
    (h : task.type = some "assign_task") :
    ∃ res : List AntResult,
      m.execute task = ManagerResult.distributed "Manager" res ∧
      res = m.ants.map (fun a => a.execute task) ∧
      res.length = m.ants.length ∧
      res.map AntResult.agent = m.ants.map ANT.name ∧
      davidai_ants.length = 6 := by
  refine ⟨m.ants.map (fun a => a.execute task), ?_, rfl, by simp, ?_, by decide⟩
  · simp [Manager.execute, h, Manager.assign_task, ANT.run]
  · rw [List.map_map]; rfl

/-- Witness for claim C4: the fan-out theorem applied to the constructed
6-worker system and the concrete `assign_task` task. -/
theorem manager_assign_task_fanout_witness :
    assignTask.type = some "assign_task" ∧
    ∃ res : List AntResult,
      (Manager.mk davidai_ants).execute assignTask = ManagerResult.distributed "Manager" res ∧
      res = (Manager.mk davidai_ants).ants.map (fun a => a.execute assignTask) ∧
      res.length = (Manager.mk davidai_ants).ants.length ∧
      res.map AntResult.agent = (Manager.mk davidai_ants).ants.map ANT.name ∧
      davidai_ants.length = 6 :=
  ⟨rfl, manager_assign_task_fanout ⟨davidai_ants⟩ assignTask rfl⟩

/-- Claim C5: after `shutdown` from any state, the status snapshot reports
`running = false`, a subsequent cycle-body iteration does not execute (the
state, hence the ledger, is unchanged and no task is dispatched), and
`shutdown` is idempotent. -/
theorem shutdown_stops_cycle (s : DavidAI) (elapsed : Nat) :
    (s.shutdown.get_status).running = false ∧
    DavidAI.cycle_iter s.shutdown elapsed = (s.shutdown, []) ∧
    s.shutdown.shutdown = s.shutdown := by
  refine ⟨rfl, ?_, rfl⟩
  simp [DavidAI.cycle_iter, DavidAI.shutdown]

/-- Claim C6: over any sequence of curator operations from the empty
ledger, `get_consolidated_knowledge` returns exactly the logged entries in
insertion order, its length equals the number of `logSuccess` calls, and
the length is non-decreasing along any split of the sequence. -/
theorem curator_ledger_append_only (ops pre post : List CuratorOp)
    (h : ops = pre ++ post) :
    (KnowledgeCurator.run_ops ⟨[]⟩ ops).get_consolidated_knowledge = loggedEntries ops ∧
    (KnowledgeCurator.run_ops ⟨[]⟩ ops).get_consolidated_knowledge.length = countLogCalls ops ∧
    (KnowledgeCurator.run_ops ⟨[]⟩ pre).get_consolidated_knowledge.length ≤
      (KnowledgeCurator.run_ops ⟨[]⟩ ops).get_consolidated_knowledge.length := by
  subst h
  refine ⟨?_, ?_, ?_⟩
  · simp [KnowledgeCurator.get_consolidated_knowledge, KnowledgeCurator.run_ops_ledger]
  · simp [KnowledgeCurator.get_consolidated_knowledge, KnowledgeCurator.run_ops_ledger,
      loggedEntries_length]
  · simp [KnowledgeCurator.get_consolidated_knowledge, KnowledgeCurator.run_ops_ledger,
      loggedEntries_append]

/-- Witness for claim C6: the ledger theorem applied to a concrete
three-operation sequence and its split after the first call. -/
theorem curator_ledger_append_only_witness :
    demoOps = demoPre ++ demoPost ∧
    ((KnowledgeCurator.run_ops ⟨[]⟩ demoOps).get_consolidated_knowledge = loggedEntries demoOps ∧
     (KnowledgeCurator.run_ops ⟨[]⟩ demoOps).get_consolidated_knowledge.length = countLogCalls demoOps ∧
     (KnowledgeCurator.run_ops ⟨[]⟩ demoPre).get_consolidated_knowledge.length ≤
       (KnowledgeCurator.run_ops ⟨[]⟩ demoOps).get_consolidated_knowledge.length) :=
  ⟨rfl, curator_ledger_append_only demoOps demoPre demoPost rfl⟩

/-- Claim C7: `start_cycle` is a no-op when the cycle is already running
(which covers both the Running and the Paused state, since pausing leaves
`is_running` true), and after any `start_cycle` the state is running and a
second `start_cycle` changes nothing and spawns no new cycle loop. -/
theorem start_cycle_idempotent (s : DavidAI) (h : s.is_running = true) :
    s.start_cycle = (s, false) ∧
    ∀ t : DavidAI, (t.start_cycle.1).is_running = true ∧
      (t.start_cycle.1).start_cycle = (t.start_cycle.1, false) := by
  refine ⟨by simp [DavidAI.start_cycle, h], fun t => ?_⟩
  by_cases ht : t.is_running <;> simp [DavidAI.start_cycle, ht]

/-- Witness for claim C7: the idempotence theorem applied to the running
state obtained by starting the freshly initialized system. -/
theorem start_cycle_idempotent_witness :
    (DavidAI.init.start_cycle.1).is_running = true ∧
    ((DavidAI.init.start_cycle.1).start_cycle = (DavidAI.init.start_cycle.1, false) ∧
     ∀ t : DavidAI, (t.start_cycle.1).is_running = true ∧
       (t.start_cycle.1).start_cycle = (t.start_cycle.1, false)) :=
  ⟨rfl, start_cycle_idempotent DavidAI.init.start_cycle.1 rfl⟩

/-- Claim C8: a task whose kind is neither `assign_task` nor
`integrate_feedback` makes `Manager.execute` return the explicit
`Unknown task type` result; the function returns normally (it is total in
this embedding), so no exception propagates. -/
theorem manager_unknown_task_type (m : Manager) (task : AgentTask)
    (h1 : task.type ≠ some "assign_task") (h2 : task.type ≠ some "integrate_feedback") :
    m.execute task = ManagerResult.errorResult "Unknown task type" := by
  simp [Manager.execute, h1, h2]

/-- Witness for claim C8: the unknown-kind theorem applied to the
constructed system and a task of kind `mystery`. -/
theorem manager_unknown_task_type_witness :
    (AgentTask.mk (some "mystery") none).type ≠ some "assign_task" ∧
    (AgentTask.mk (some "mystery") none).type ≠ some "integrate_feedback" ∧
    (Manager.mk davidai_ants).execute ⟨some "mystery", none⟩ =
      ManagerResult.errorResult "Unknown task type" :=
  ⟨by decide, by decide,
   manager_unknown_task_type ⟨davidai_ants⟩ ⟨some "mystery", none⟩ (by decide) (by decide)⟩

/-- Claim C9: looking up an unregistered name in the model registry returns
the fallback `DummyModel`, whose `generate` is total and returns the
deterministic echo-shaped string for every prompt, in particular for
`hello`. -/
theorem get_model_fallback_echo (m : DavidAIModelManager) (n : String)
    (h : m.models n = none) :
    m.get_model n = DummyModel ∧
    (∀ p : String, m.get_model n p = "[Dummy Response] Processed: " ++ p) ∧
    m.get_model n "hello" = "[Dummy Response] Processed: hello" := by
  refine ⟨?_, ?_, ?_⟩ <;> simp [DavidAIModelManager.get_model, h, DummyModel]

/-- Witness for claim C9: the fallback theorem applied to the empty
registry and the unregistered name `UnregisteredAgent`. -/
theorem get_model_fallback_echo_witness :
    emptyManager.models "UnregisteredAgent" = none ∧
    (emptyManager.get_model "UnregisteredAgent" = DummyModel ∧
     (∀ p : String, emptyManager.get_model "UnregisteredAgent" p =
        "[Dummy Response] Processed: " ++ p) ∧
     emptyManager.get_model "UnregisteredAgent" "hello" =
        "[Dummy Response] Processed: hello") :=
  ⟨rfl, get_model_fallback_echo emptyManager "UnregisteredAgent" rfl⟩

/-- Claim C10: `pause_cycle` unconditionally flips the paused flag in every
state, `start_cycle` leaves the paused flag unchanged, and after
`pause_cycle` then `start_cycle` from the initial state the status reports
`running = true` and `paused = true` while the cycle body dispatches no
task and leaves the state (hence the ledger) unchanged. -/
theorem pause_flips_and_start_preserves_paused (s : DavidAI) (elapsed : Nat) :
    (s.pause_cycle).is_paused = !s.is_paused ∧
    (s.start_cycle.1).is_paused = s.is_paused ∧
    ((DavidAI.init.pause_cycle).start_cycle.1).get_status.running = true ∧
    ((DavidAI.init.pause_cycle).start_cycle.1).get_status.paused = true ∧
    DavidAI.cycle_iter ((DavidAI.init.pause_cycle).start_cycle.1) elapsed =
      ((DavidAI.init.pause_cycle).start_cycle.1, []) := by
  refine ⟨rfl, ?_, rfl, rfl, rfl⟩
  by_cases hr : s.is_running <;> simp [DavidAI.start_cycle, hr]
